import Mathlib

/-!
# Verification of the threshold-gated RAG therapy dialogue engine

Shallow embedding of the retrieval-augmented counseling subsystem
(`rag_therapy.py`, `therapy_protocol.py`, `search_engine.py`,
`response_generator.py`).  The Python implementation itself is not present in
this snapshot of the repository; the embedding below is modelled from the
specification together with the repository's own detailed design documents
(the concept document, the algorithm-flow document and the RAG-therapy
algorithm document), which record the keyword tables, the numeric constants,
the branch structure and literal pseudocode of the missing modules.

External providers (embedding model, vector store, generation model) are
modelled as oracle functions that may fail with explicit error values.
Floating-point similarity scores are modelled as exact rationals.
-/

namespace VA

/-! ## String utilities (substring detection used by every keyword check) -/

/-- Boolean test that the first character list leads the second. -/
def pfxOf : List Char → List Char → Bool
  | [], _ => true
  | _ :: _, [] => false
  | a :: as, b :: bs => a == b && pfxOf as bs

/-- Boolean test that `p` occurs contiguously somewhere inside the second list. -/
def subListOf (p : List Char) : List Char → Bool
  | [] => pfxOf p []
  | c :: cs => pfxOf p (c :: cs) || subListOf p cs

/-- `strOccurs pat s` is the Python `pat in s` membership test on strings. -/
def strOccurs (pat s : String) : Bool := subListOf pat.toList s.toList

/-! ## Keyword tables

Modelled from the spec: the keyword tables of `therapy_protocol.py` and
`response_generator.py` (absent from the snapshot), as recorded verbatim in
the repository's concept document (§2.5.3) and RAG-therapy algorithm
document. -/

/-- Crisis keywords driving protocol selection (self-harm/hopelessness set). -/
def crisis_keywords : List String :=
  ["죽고 싶", "자살", "자해", "끝내고 싶", "포기", "절망"]

/-- Solution-seeking keywords selecting the solution-focused protocol. -/
def solution_keywords : List String :=
  ["어떻게", "방법", "해결", "개선", "나아지", "변화"]

/-- Critical-severity keyword tier (short-circuits the assessment). -/
def critical_keywords : List String :=
  ["죽고 싶", "자살", "자해", "끝내고 싶"]

/-- High-severity keyword tier. -/
def high_keywords : List String :=
  ["견딜 수 없", "미치겠", "한계", "더 이상 못", "불가능"]

/-- Medium-severity keyword tier. -/
def medium_keywords : List String :=
  ["힘들", "어렵", "괴롭", "고통", "스트레스"]

/-- Emotion lexicon used by the emotion-aware score boost. -/
def emotion_keywords : List String :=
  ["힘들", "어렵", "괴롭", "슬프", "화나", "우울", "불안", "답답", "스트레스",
   "고통", "절망", "무기력", "초조", "걱정", "두려움", "짜증", "분노", "상처",
   "아픔", "외로움", "허탈", "실망"]

/-- Emotion/counseling keywords used by input classification. -/
def counseling_keywords : List String :=
  ["힘들어", "상담", "짜증", "우울", "불안", "스트레스", "고민", "걱정",
   "슬프", "외로", "화나", "답답", "counseling", "therapy", "help",
   "depressed", "anxious"]

/-- Closing phrases that end a counseling session. -/
def closing_keywords : List String :=
  ["exit", "고마워", "끝", "종료", "그만", "안녕"]

/-! ## ProtocolEngine (`therapy_protocol.py`) -/

/-- Counseling protocol variants: EAP (safety), SFBT (solution-focused),
integrated default. -/
inductive ProtocolType
  | eap
  | sfbt
  | integrated
  deriving DecidableEq, Repr

/-- Four ordered severity levels. -/
inductive Severity
  | critical
  | high
  | medium
  | low
  deriving DecidableEq, Repr

/-- Modelled from the spec: `select_protocol` of the absent
`therapy_protocol.py` — crisis keywords take precedence and select the safety
(EAP) protocol, solution keywords select SFBT, otherwise integrated. -/
def select_protocol (input : String) : ProtocolType :=
  if crisis_keywords.any (fun k => strOccurs k input) then .eap
  else if solution_keywords.any (fun k => strOccurs k input) then .sfbt
  else .integrated

/-- Modelled from the spec: `assess_severity` of the absent
`therapy_protocol.py` — four disjoint keyword tiers, critical short-circuits,
default low. -/
def assess_severity (input : String) : Severity :=
  if critical_keywords.any (fun k => strOccurs k input) then .critical
  else if high_keywords.any (fun k => strOccurs k input) then .high
  else if medium_keywords.any (fun k => strOccurs k input) then .medium
  else .low

/-- Per-session counseling state tracked by the protocol engine. -/
structure TherapySession where
  conversation_count : Nat
  protocol_type : ProtocolType
  severity_level : Severity
  identified_issues : List String
  deriving DecidableEq, Repr

/-- Fresh session state used at creation and on every reset. -/
def initialSession : TherapySession :=
  { conversation_count := 0
    protocol_type := .integrated
    severity_level := .low
    identified_issues := [] }

/-- Solution-focused follow-up question archetype per conversation turn. -/
def sfbtQuestionType (count : Nat) : String :=
  match count with
  | 0 => "scaling"
  | 1 => "exception"
  | 2 => "coping"
  | 3 => "miracle"
  | _ => "relationship"

/-- Guidance record returned by the protocol engine for one turn. -/
structure Guidance where
  protocol_type : ProtocolType
  severity_level : Severity
  sfbt_question_type : String
  session : TherapySession
  deriving DecidableEq, Repr

/-- Modelled from the spec: `generate_protocol_guidance` of the absent
`therapy_protocol.py` — selects protocol and severity by keywords and
advances the session state. -/
def generate_protocol_guidance (s : TherapySession) (input : String) : Guidance :=
  let p := select_protocol input
  let sev := assess_severity input
  { protocol_type := p
    severity_level := sev
    sfbt_question_type := sfbtQuestionType s.conversation_count
    session :=
      { s with
        conversation_count := s.conversation_count + 1
        protocol_type := p
        severity_level := sev } }

/-! ## External providers -/

/-- Errors of the embedding/generation providers. -/
inductive ProviderError
  | timeout
  | apiFailure
  deriving DecidableEq, Repr

/-- Per-call vector-store errors. -/
inductive StoreError
  | unavailable
  | callFailed
  deriving DecidableEq, Repr

/-- Raw record returned by the vector store for one neighbor. -/
structure RawChunk where
  id : String
  text : String
  distance : ℚ
  deriving DecidableEq, Repr

/-- Oracle bundle for the three external providers: generation model
(`Complete`), embedding model (`Embed`) and vector store (`Query`). -/
structure Providers where
  generate : String → Except ProviderError String
  embed : String → Except ProviderError (List ℚ)
  query : List ℚ → Nat → Except StoreError (List RawChunk)

/-! ## SearchEngine (`search_engine.py`) -/

/-- One retrieval result carrying derived similarity. -/
structure SearchResult where
  id : String
  text : String
  distance : ℚ
  similarity : ℚ
  deriving DecidableEq, Repr

/-- Per-iteration search quality record. -/
structure Quality where
  avg_similarity : ℚ
  diversity_score : ℚ
  quality_score : ℚ
  needs_improvement : Bool
  deriving DecidableEq, Repr

/-- `get_distance_to_similarity`: converts an L2 distance to a similarity
score via `1 / (1 + distance)`. -/
def get_distance_to_similarity (d : ℚ) : ℚ := 1 / (1 + d)

/-- Prompt sent to the generation model to translate a query to English. -/
def translationPrompt (text : String) : String :=
  "You are a translator. Translate the following text to English.\n" ++ text

/-- Modelled from the spec: `translate_to_english` of the absent
`rag_therapy.py` — a generation-model call whose failure falls back to the
original untranslated text. -/
def translate_to_english (P : Providers) (text : String) : String :=
  match P.generate (translationPrompt text) with
  | .ok t => t
  | .error _ => text

/-- Emotion keywords of the lexicon that occur in the user input. -/
def matchedEmotion (input : String) : List String :=
  emotion_keywords.filter (fun k => strOccurs k input)

/-- Fraction of the input's matched emotion keywords present in a chunk. -/
def emotionRatio (input chunkText : String) : ℚ :=
  if (matchedEmotion input).length = 0 then 0
  else (((matchedEmotion input).filter (fun k => strOccurs k chunkText)).length : ℚ) /
    ((matchedEmotion input).length : ℚ)

/-- Boost added for an emotion match ratio: `min(0.2, ratio * 0.2)`. -/
def boostOfRatio (r : ℚ) : ℚ := min (2/10) (r * (2/10))

/-- `_calculate_emotion_boost`: emotion-keyword bonus of one chunk, capped at
0.2. -/
def calc_emotion_boost (input chunkText : String) : ℚ :=
  boostOfRatio (emotionRatio input chunkText)

/-- One embedding + vector-store round trip for a single query text; returns
the scored results together with the number of provider calls made.  Provider
failures yield an empty result list (the turn proceeds). -/
def searchOnce (P : Providers) (q : String) : List SearchResult × Nat :=
  match P.embed q with
  | .error _ => ([], 1)
  | .ok v =>
    match P.query v 5 with
    | .error _ => ([], 2)
    | .ok raws =>
      (raws.map (fun r =>
        { id := r.id, text := r.text, distance := r.distance
          similarity := get_distance_to_similarity r.distance }), 2)

/-- Drops later duplicates of a chunk id, keeping first occurrences. -/
def dedupById (rs : List SearchResult) : List SearchResult :=
  rs.foldl (fun acc r => if acc.any (fun x => x.id == r.id) then acc else acc ++ [r]) []

/-- Evaluates average similarity, diversity and the combined quality score of
a result set; `needs_improvement` is the expansion trigger
`quality_score < 0.7 ∧ avg_similarity < 0.6`. -/
def evalQuality (rs : List SearchResult) : Quality :=
  if rs.length = 0 then
    { avg_similarity := 0, diversity_score := 0, quality_score := 0
      needs_improvement := true }
  else
    let avg := (rs.map (fun r => r.similarity)).sum / (rs.length : ℚ)
    let dv := ((rs.map (fun r => r.id)).dedup.length : ℚ) / (rs.length : ℚ)
    let qs := (avg + dv) / 2
    { avg_similarity := avg, diversity_score := dv, quality_score := qs
      needs_improvement := decide (qs < 7/10 ∧ avg < 6/10) }

/-- Fixed keyword augmentation used when a query must be expanded. -/
def expandQuery (q : String) : String := q ++ " 심리 상담"

/-- Result of the iterative expansion loop: merged results, last quality,
expansion iterations executed and provider calls made. -/
structure LoopOut where
  results : List SearchResult
  quality : Quality
  iters : Nat
  calls : Nat
  deriving DecidableEq, Repr

/-- Modelled from the spec:
`_iterative_search_with_query_expansion_async` of the absent
`search_engine.py` — repeat query expansion up to a fixed fuel cap, stopping
early the instant `quality_score ≥ 0.7` or `avg_similarity ≥ 0.6`. -/
def iterLoop (P : Providers) : Nat → String → List SearchResult → Quality → LoopOut
  | 0, _, rs, qual => ⟨rs, qual, 0, 0⟩
  | Nat.succ fuel, q, rs, qual =>
    if 7/10 ≤ qual.quality_score ∨ 6/10 ≤ qual.avg_similarity then ⟨rs, qual, 0, 0⟩
    else
      let q2 := expandQuery q
      let step := searchOnce P q2
      let merged := dedupById (rs ++ step.1)
      let out := iterLoop P fuel q2 merged (evalQuality merged)
      ⟨out.results, out.quality, out.iters + 1, out.calls + step.2⟩

/-- Fixed cap on expansion iterations of the multi-step search. -/
def maxIterations : Nat := 2

/-- Insertion step of the descending sort by boosted similarity. -/
def insertBySim (r : SearchResult) : List SearchResult → List SearchResult
  | [] => [r]
  | x :: xs => if x.similarity ≤ r.similarity then r :: x :: xs else x :: insertBySim r xs

/-- Sorts search results by similarity, highest first. -/
def sortBySim (rs : List SearchResult) : List SearchResult :=
  rs.foldr insertBySim []

/-- Final outcome of one turn's search pipeline. -/
structure SearchOutcome where
  results : List SearchResult
  quality : Quality
  iterations_used : Nat
  retrieval_calls : Nat
  query_text : String
  deriving DecidableEq, Repr

/-- Whole search pipeline of one turn: translate the query, run the initial
retrieval, iterate expansion under the cap, apply the emotion-aware boost and
re-sort.  `query_text` records the text actually embedded. -/
def searchTurn (P : Providers) (input : String) : SearchOutcome :=
  let qt := translate_to_english P input
  let first := searchOnce P qt
  let out := iterLoop P maxIterations qt first.1 (evalQuality first.1)
  let boosted := out.results.map (fun r =>
    { r with similarity := r.similarity + calc_emotion_boost input r.text })
  { results := sortBySim boosted
    quality := out.quality
    iterations_used := out.iters + 1
    retrieval_calls := first.2 + out.calls
    query_text := qt }

/-- Maximum similarity over a result set, 0 when empty. -/
def topSimilarity (rs : List SearchResult) : ℚ :=
  rs.foldr (fun r acc => max r.similarity acc) 0

/-! ## ResponseGenerator (`response_generator.py`) and the orchestrator
(`rag_therapy.py`) -/

/-- One entry of the per-session short-term history. -/
structure HistEntry where
  user : String
  assistant : String
  deriving DecidableEq, Repr

/-- History update of `generate_response_with_persona`: append the new turn,
then keep only the 10 most recent entries. -/
def pushHistory (h : List HistEntry) (e : HistEntry) : List HistEntry :=
  if (h ++ [e]).length > 10 then (h ++ [e]).drop ((h ++ [e]).length - 10)
  else h ++ [e]

/-- `classify_input`: routes the input to adler / counseling / general. -/
def classify_input (input : String) : String :=
  if strOccurs "아들러" input || strOccurs "adler" input.toLower then "adler"
  else if counseling_keywords.any (fun k => strOccurs k input.toLower) then "counseling"
  else "general"

/-- Detection of closing phrases ending a session. -/
def isClosing (input : String) : Bool :=
  closing_keywords.any (fun k => strOccurs k input)

/-- Answer returned when the generation provider fails on a turn. -/
def fallbackMessage : String :=
  "죄송합니다. 답변 생성 중 문제가 발생했습니다. 다시 말씀해 주시겠어요?"

/-- Closing acknowledgment returned on a closing phrase. -/
def closingMessage : String :=
  "오늘 상담은 여기까지 할게요. 언제든 다시 찾아주세요."

/-- Adler-persona system prompt head shared by both generation paths. -/
def personaHead : String :=
  "당신은 아들러 개인심리학 관점의 상담사입니다."

/-- Renders history turns as prompt lines. -/
def renderHistory (h : List HistEntry) : String :=
  String.intercalate "\n" (h.map (fun e => e.user ++ " / " ++ e.assistant))

/-- Prompt of the unaugmented path: persona plus the last 2 history turns. -/
def llmOnlyPrompt (input : String) (h : List HistEntry) : String :=
  personaHead ++ "\n" ++ renderHistory (h.drop (h.length - 2)) ++ "\n질문: " ++ input

/-- Prompt of the retrieval-augmented path: persona, top 3 chunks with
provenance, and the last 5 history turns. -/
def ragPrompt (input : String) (rs : List SearchResult) (h : List HistEntry) : String :=
  personaHead ++ "\n참고 자료:\n"
    ++ String.intercalate "\n" ((rs.take 3).map (fun r => r.text ++ " (출처: " ++ r.id ++ ")"))
    ++ "\n" ++ renderHistory (h.drop (h.length - 5)) ++ "\n질문: " ++ input

/-- Runs the generation provider, converting a provider error into the safe
fallback answer instead of propagating it. -/
def runGenerate (P : Providers) (prompt : String) : String :=
  match P.generate prompt with
  | .ok s => s
  | .error _ => fallbackMessage

/-- Full per-turn system state: bounded history plus protocol session. -/
structure SysState where
  history : List HistEntry
  session : TherapySession
  deriving DecidableEq, Repr

/-- Answer envelope of one dialogue turn. -/
structure ChatResult where
  answer : String
  mode : String
  used_chunks : List String
  similarity_score : ℚ
  search_iterations : Nat
  self_learn_calls : Nat
  retrieval_calls : Nat
  history : List HistEntry
  session : TherapySession
  continue_conversation : Bool
  deriving DecidableEq, Repr

/-- Turn result of the closing path: session and history reset, closing
acknowledgment, no retrieval and no self-learning. -/
def closingResult : ChatResult :=
  { answer := closingMessage
    mode := "closing"
    used_chunks := []
    similarity_score := 0
    search_iterations := 0
    self_learn_calls := 0
    retrieval_calls := 0
    history := []
    session := initialSession
    continue_conversation := false }

/-- Threshold branch of the response generator: `topSimilarity ≥ 0.7` takes
the unaugmented (`llm_only`) path; otherwise the retrieval-augmented path,
which also fires the self-learning write-back exactly once. -/
def chatRespond (P : Providers) (st : SysState) (input : String)
    (so : SearchOutcome) : ChatResult :=
  if 7/10 ≤ topSimilarity so.results then
    let ans := runGenerate P (llmOnlyPrompt input st.history)
    { answer := ans
      mode := "llm_only"
      used_chunks := []
      similarity_score := topSimilarity so.results
      search_iterations := so.iterations_used
      self_learn_calls := 0
      retrieval_calls := so.retrieval_calls
      history := pushHistory st.history ⟨input, ans⟩
      session := (generate_protocol_guidance st.session input).session
      continue_conversation := true }
  else
    let ans := runGenerate P (ragPrompt input so.results st.history)
    { answer := ans
      mode := classify_input input
      used_chunks := (so.results.take 3).map (fun r => r.text)
      similarity_score := topSimilarity so.results
      search_iterations := so.iterations_used
      self_learn_calls := 1
      retrieval_calls := so.retrieval_calls
      history := pushHistory st.history ⟨input, ans⟩
      session := (generate_protocol_guidance st.session input).session
      continue_conversation := true }

/-- Modelled from the spec: `chat` of the absent `rag_therapy.py` — the
per-turn orchestrator.  A closing phrase resets session and history and
returns the closing acknowledgment without retrieval; otherwise the search
pipeline runs and the threshold branch produces the answer. -/
def chat (P : Providers) (st : SysState) (input : String) : ChatResult :=
  if isClosing input then closingResult
  else chatRespond P st input (searchTurn P input)

/-! ## Concrete provider fixtures used to exercise the model -/

/-- Store holding one distant chunk (distance 9, similarity 0.1); the
generation model succeeds. -/
def oracleLow : Providers :=
  { generate := fun _ => .ok "알겠습니다"
    embed := fun _ => .ok [1, 0]
    query := fun _ _ => .ok [⟨"c1", "문서 내용", 9⟩] }

/-- Store holding one chunk at distance 3/7, i.e. similarity exactly 0.7;
the generation model fails on every call. -/
def oracleBoundary : Providers :=
  { generate := fun _ => .error .apiFailure
    embed := fun _ => .ok [1]
    query := fun _ _ => .ok [⟨"c", "plain text", 3/7⟩] }

/-- Store holding one chunk at distance 0 whose text matches the emotion
keyword of the query, maximizing the emotion boost. -/
def oracleBoost : Providers :=
  { generate := fun _ => .error .apiFailure
    embed := fun _ => .ok [1]
    query := fun _ _ => .ok [⟨"cid", "힘들 때", 0⟩] }

/-- Providers in total outage: every call times out. -/
def oracleDown : Providers :=
  { generate := fun _ => .error .timeout
    embed := fun _ => .error .timeout
    query := fun _ _ => .error .callFailed }

/-- Fresh system state: empty history, fresh session. -/
def st0 : SysState := ⟨[], initialSession⟩

/-! ## Helper lemmas -/

theorem pushHistory_length_le (h : List HistEntry) (e : HistEntry) :
    (pushHistory h e).length ≤ 10 := by
  unfold pushHistory
  by_cases hb : (h ++ [e]).length > 10
  · simp only [if_pos hb, List.length_drop]
    omega
  · simp only [if_neg hb]
    omega

theorem pushHistory_full_evicts (h : List HistEntry) (e : HistEntry)
    (hlen : h.length = 10) : pushHistory h e = h.tail ++ [e] := by
  unfold pushHistory
  have hb : (h ++ [e]).length > 10 := by simp [hlen]
  rw [if_pos hb]
  have h1 : (h ++ [e]).length - 10 = 1 := by simp [hlen]
  rw [h1, List.drop_append_of_le_length (by omega), List.drop_one]

theorem classify_input_cases (input : String) :
    classify_input input = "adler" ∨ classify_input input = "counseling" ∨
    classify_input input = "general" := by
  unfold classify_input
  split
  · exact Or.inl rfl
  · split
    · exact Or.inr (Or.inl rfl)
    · exact Or.inr (Or.inr rfl)

theorem classify_input_ne_llm_only (input : String) :
    classify_input input ≠ "llm_only" := by
  rcases classify_input_cases input with h | h | h <;> rw [h] <;> decide

theorem classify_input_ne_retrieval_augmented (input : String) :
    classify_input input ≠ "retrieval_augmented" := by
  rcases classify_input_cases input with h | h | h <;> rw [h] <;> decide

theorem runGenerate_spec (P : Providers) (prompt : String) :
    runGenerate P prompt = fallbackMessage ∨
    P.generate prompt = Except.ok (runGenerate P prompt) := by
  unfold runGenerate
  cases hg : P.generate prompt with
  | ok s => exact Or.inr rfl
  | error e => exact Or.inl rfl

theorem iterLoop_iters_le (P : Providers) (fuel : Nat) (q : String)
    (rs : List SearchResult) (qual : Quality) :
    (iterLoop P fuel q rs qual).iters ≤ fuel := by
  induction fuel generalizing q rs qual with
  | zero => simp [iterLoop]
  | succ n ih =>
    rw [iterLoop]
    split
    · simp
    · simpa using Nat.succ_le_succ (ih _ _ _)

theorem iterLoop_early_exit_eq (P : Providers) (fuel : Nat) (q : String)
    (rs : List SearchResult) (qual : Quality)
    (h : 7/10 ≤ qual.quality_score ∨ 6/10 ≤ qual.avg_similarity) :
    iterLoop P fuel q rs qual = ⟨rs, qual, 0, 0⟩ := by
  cases fuel with
  | zero => rfl
  | succ n => rw [iterLoop, if_pos h]

theorem chatRespond_similarity_eq (P : Providers) (st : SysState) (input : String)
    (so : SearchOutcome) :
    (chatRespond P st input so).similarity_score = topSimilarity so.results := by
  unfold chatRespond
  split <;> rfl

theorem chatRespond_continues (P : Providers) (st : SysState) (input : String)
    (so : SearchOutcome) :
    (chatRespond P st input so).continue_conversation = true := by
  unfold chatRespond
  split <;> rfl

theorem chatRespond_history_le (P : Providers) (st : SysState) (input : String)
    (so : SearchOutcome) :
    (chatRespond P st input so).history.length ≤ 10 := by
  unfold chatRespond
  split <;> exact pushHistory_length_le _ _

theorem chat_not_closing_eq (P : Providers) (st : SysState) (input : String)
    (hcl : isClosing input = false) :
    chat P st input = chatRespond P st input (searchTurn P input) := by
  unfold chat
  rw [hcl]
  rfl

theorem emotionRatio_nonneg (input chunkText : String) :
    0 ≤ emotionRatio input chunkText := by
  unfold emotionRatio
  split
  · exact le_refl 0
  · positivity

theorem assess_severity_critical_iff (input : String) :
    assess_severity input = Severity.critical ↔
    critical_keywords.any (fun k => strOccurs k input) = true := by
  unfold assess_severity
  split_ifs with h1 h2 h3
  · exact iff_of_true rfl h1
  · exact iff_of_false (by decide) h1
  · exact iff_of_false (by decide) h1
  · exact iff_of_false (by decide) h1

theorem emotionRatio_le_one (input chunkText : String) :
    emotionRatio input chunkText ≤ 1 := by
  unfold emotionRatio
  split
  · exact zero_le_one
  · rename_i hne
    rw [div_le_one (by positivity)]
    exact_mod_cast List.length_filter_le _ _

/-! ## Claim theorems -/

/-- C1: for every non-closing turn, the response branch is decided by the
predicate `topSimilarity ≥ 0.7`: the mode is `llm_only` exactly when the
maximum result similarity (exposed as `similarity_score`) is at least 0.7
(including exactly 0.7), and a strictly smaller similarity takes the
retrieval-augmented path, whose mode is the input classification and never
`llm_only`. -/
theorem threshold_branch_decides_mode (P : Providers) (st : SysState) (input : String)
    (hcl : isClosing input = false) :
    ((chat P st input).mode = "llm_only" ↔ 7/10 ≤ (chat P st input).similarity_score) ∧
    ((chat P st input).similarity_score < 7/10 →
      (chat P st input).mode = classify_input input ∧
      (chat P st input).mode ≠ "llm_only") := by
  rw [chat_not_closing_eq P st input hcl]
  unfold chatRespond
  split
  · rename_i h7
    constructor
    · simpa using h7
    · intro hlt
      exact absurd h7 (not_le.mpr (by simpa using hlt))
  · rename_i h7
    constructor
    · simp only []
      constructor
      · intro hm
        exact absurd hm (classify_input_ne_llm_only input)
      · intro hge
        exact absurd hge h7
    · intro _
      exact ⟨rfl, classify_input_ne_llm_only input⟩

/-- C1 witness: at similarity exactly 0.7 (store distance 3/7) the branch
theorem yields the unaugmented `llm_only` mode. -/
theorem threshold_branch_decides_mode_witness :
    (chat oracleBoundary st0 "오늘 날씨 알려줘").similarity_score = 7/10 ∧
    (chat oracleBoundary st0 "오늘 날씨 알려줘").mode = "llm_only" := by
  have h := threshold_branch_decides_mode oracleBoundary st0 "오늘 날씨 알려줘"
    (by with_unfolding_all decide)
  have hs : (chat oracleBoundary st0 "오늘 날씨 알려줘").similarity_score = 7/10 := by
    with_unfolding_all decide
  exact ⟨hs, h.1.mpr (by rw [hs])⟩

/-- C2 counterexample: the crisis keyword "절망" (hopelessness) forces the
safety (EAP) protocol but yields severity low, not critical, because the
critical severity tier is a strict subset of the crisis keyword set. -/
theorem crisis_implies_critical_cex :
    select_protocol "요즘 절망뿐이야" = ProtocolType.eap ∧
    assess_severity "요즘 절망뿐이야" = Severity.low ∧
    Severity.low ≠ Severity.critical := by
  refine ⟨?_, ?_, ?_⟩ <;> decide

/-- C2 (amended): any crisis keyword always forces the safety (EAP)
protocol; severity is critical exactly when the input contains a keyword of
the critical tier, the self-harm subset of the crisis set — so an input
whose only crisis keywords are the hopelessness keywords "포기" or "절망"
selects the safety protocol without yielding critical severity. -/
theorem crisis_implies_safety_protocol (input : String)
    (hc : crisis_keywords.any (fun k => strOccurs k input) = true) :
    select_protocol input = ProtocolType.eap ∧
    (assess_severity input = Severity.critical ↔
      critical_keywords.any (fun k => strOccurs k input) = true) := by
  constructor
  · unfold select_protocol
    rw [hc]
    rfl
  · exact assess_severity_critical_iff input

/-- C2 witness: an input containing the self-harm keyword "자살" gets the
safety protocol and critical severity. -/
theorem crisis_implies_safety_protocol_witness :
    select_protocol "자살하고 싶어" = ProtocolType.eap ∧
    assess_severity "자살하고 싶어" = Severity.critical := by
  have h := crisis_implies_safety_protocol "자살하고 싶어" (by decide)
  exact ⟨h.1, h.2.mpr (by decide)⟩

/-- C3: on every non-closing turn the self-learning write-back fires exactly
once if and only if the retrieval-augmented branch (top similarity < 0.7)
was taken, and never fires on the unaugmented branch. -/
theorem self_learning_iff_augmented (P : Providers) (st : SysState) (input : String)
    (hcl : isClosing input = false) :
    ((chat P st input).self_learn_calls = 1 ↔
      (chat P st input).similarity_score < 7/10) ∧
    (7/10 ≤ (chat P st input).similarity_score →
      (chat P st input).self_learn_calls = 0) := by
  rw [chat_not_closing_eq P st input hcl]
  unfold chatRespond
  split
  · rename_i h7
    refine ⟨?_, fun _ => rfl⟩
    constructor
    · intro h01
      have h01n : (0 : Nat) = 1 := h01
      exact absurd h01n (by decide)
    · intro hlt
      exact absurd h7 (not_le.mpr hlt)
  · rename_i h7
    exact ⟨iff_of_true rfl (not_le.mp h7), fun hge => absurd hge h7⟩

/-- C3 witness: with a distant chunk (similarity 0.1) the augmented branch
is taken and the self-learning write-back fires exactly once. -/
theorem self_learning_iff_augmented_witness :
    (chat oracleLow st0 "오늘 날씨 알려줘").self_learn_calls = 1 := by
  have h := self_learning_iff_augmented oracleLow st0 "오늘 날씨 알려줘"
    (by with_unfolding_all decide)
  exact h.1.mpr (by with_unfolding_all decide)

/-- C4: after every turn the per-session short-term history holds at most 10
entries; appending to a full 10-entry history evicts exactly the oldest
entry (FIFO), and both mutating operations (append-and-trim, reset) preserve
the bound. -/
theorem history_bounded_and_fifo (P : Providers) (st : SysState) (input : String)
    (h : List HistEntry) (e : HistEntry) :
    (chat P st input).history.length ≤ 10 ∧
    (pushHistory h e).length ≤ 10 ∧
    (h.length = 10 → pushHistory h e = h.tail ++ [e]) := by
  refine ⟨?_, pushHistory_length_le h e, pushHistory_full_evicts h e⟩
  unfold chat
  split
  · simp [closingResult]
  · exact chatRespond_history_le _ _ _ _

/-- C4 witness: pushing onto a concrete 10-entry history keeps 10 entries
and drops exactly the oldest one. -/
theorem history_bounded_and_fifo_witness :
    (chat oracleLow st0 "아무 말").history.length ≤ 10 ∧
    (pushHistory (List.replicate 10 ⟨"u", "a"⟩) ⟨"u2", "a2"⟩).length ≤ 10 ∧
    pushHistory (List.replicate 10 (⟨"u", "a"⟩ : HistEntry)) ⟨"u2", "a2"⟩ =
      (List.replicate 10 (⟨"u", "a"⟩ : HistEntry)).tail ++ [⟨"u2", "a2"⟩] := by
  have h := history_bounded_and_fifo oracleLow st0 "아무 말"
    (List.replicate 10 ⟨"u", "a"⟩) ⟨"u2", "a2"⟩
  exact ⟨h.1, h.2.1, h.2.2 (by decide)⟩

/-- C5 counterexample: a search outcome produced by the engine carries final
similarity 6/5 = 1.2 ∉ [0,1] — a chunk at distance 0 (base similarity 1)
with a full emotion-keyword match (boost 0.2). -/
theorem similarity_in_unit_interval_cex :
    ((searchTurn oracleBoost "힘들어").results.map (fun r => r.similarity)) = [6/5] ∧
    ¬ ((6/5 : ℚ) ≤ 1) := by
  constructor
  · with_unfolding_all decide
  · norm_num

/-- C5 (amended): for every produced result the base similarity
`1/(1+distance)` lies in (0,1], the emotion boost `min(0.2, ratio*0.2)` lies
in [0, 0.2], and the final similarity (their sum) lies in (0, 1.2] — not in
[0,1]. -/
theorem similarity_components_range (input chunkText : String) (d : ℚ)
    (hd : 0 ≤ d) :
    (0 < get_distance_to_similarity d ∧ get_distance_to_similarity d ≤ 1) ∧
    (0 ≤ calc_emotion_boost input chunkText ∧
      calc_emotion_boost input chunkText ≤ 2/10) ∧
    (0 < get_distance_to_similarity d + calc_emotion_boost input chunkText ∧
      get_distance_to_similarity d + calc_emotion_boost input chunkText ≤ 6/5) := by
  have h1 : (0 : ℚ) < 1 + d := by linarith
  have hbase_pos : 0 < get_distance_to_similarity d := by
    unfold get_distance_to_similarity
    positivity
  have hbase_le : get_distance_to_similarity d ≤ 1 := by
    unfold get_distance_to_similarity
    rw [div_le_one h1]
    linarith
  have hr0 := emotionRatio_nonneg input chunkText
  have hboost0 : 0 ≤ calc_emotion_boost input chunkText := by
    unfold calc_emotion_boost boostOfRatio
    exact le_min (by norm_num) (mul_nonneg hr0 (by norm_num))
  have hboost2 : calc_emotion_boost input chunkText ≤ 2/10 := by
    unfold calc_emotion_boost boostOfRatio
    exact min_le_left _ _
  exact ⟨⟨hbase_pos, hbase_le⟩, ⟨hboost0, hboost2⟩,
    ⟨by linarith, by linarith⟩⟩

/-- C5 witness: at distance 0 with a fully matching emotion context the
amended bounds hold concretely. -/
theorem similarity_components_range_witness :
    0 < get_distance_to_similarity 0 + calc_emotion_boost "힘들어" "힘들 때" ∧
    get_distance_to_similarity 0 + calc_emotion_boost "힘들어" "힘들 때" ≤ 6/5 := by
  have h := similarity_components_range "힘들어" "힘들 때" 0 (le_refl 0)
  exact h.2.2

theorem searchTurn_iterations_le (P : Providers) (input : String) :
    (searchTurn P input).iterations_used ≤ maxIterations + 1 := by
  show (iterLoop P maxIterations (translate_to_english P input)
      (searchOnce P (translate_to_english P input)).1
      (evalQuality (searchOnce P (translate_to_english P input)).1)).iters + 1 ≤
    maxIterations + 1
  exact Nat.succ_le_succ (iterLoop_iters_le _ _ _ _ _)

/-- C6: the query-expansion loop executes at most `fuel` expansion
iterations (so the whole search stays within the fixed cap), and the moment
`quality_score ≥ 0.7` or `avg_similarity ≥ 0.6` holds, no further expansion
iteration is executed — the loop returns its inputs unchanged. -/
theorem search_loop_cap_and_early_exit :
    ∀ (P : Providers) (fuel : Nat) (q : String) (rs : List SearchResult)
      (qual : Quality),
      ((iterLoop P fuel q rs qual).iters ≤ fuel) ∧
      (7/10 ≤ qual.quality_score ∨ 6/10 ≤ qual.avg_similarity →
        iterLoop P fuel q rs qual = ⟨rs, qual, 0, 0⟩) ∧
      (∀ input, (searchTurn P input).iterations_used ≤ maxIterations + 1) := by
  intro P fuel q rs qual
  exact ⟨iterLoop_iters_le P fuel q rs qual,
    iterLoop_early_exit_eq P fuel q rs qual,
    fun input => searchTurn_iterations_le P input⟩

/-- C6 witness: at a quality record already meeting the exit condition the
loop performs zero iterations, within the cap. -/
theorem search_loop_cap_and_early_exit_witness :
    iterLoop oracleLow 2 "질문" [] ⟨1, 1, 1, false⟩ = ⟨[], ⟨1, 1, 1, false⟩, 0, 0⟩ ∧
    (iterLoop oracleLow 2 "질문" [] ⟨1, 1, 1, false⟩).iters ≤ 2 := by
  have h := search_loop_cap_and_early_exit oracleLow 2 "질문" [] ⟨1, 1, 1, false⟩
  exact ⟨h.2.1 (Or.inl (by norm_num)), h.1⟩

/-- C7: on a turn whose input matches the closing-phrase set, the session
state and the short-term history are reset, a closing acknowledgment is
returned, no retrieval call (embedding or vector-store query) is made and
no self-learning write happens. -/
theorem closing_resets_session_no_retrieval (P : Providers) (st : SysState)
    (input : String) (hcl : isClosing input = true) :
    (chat P st input).history = [] ∧
    (chat P st input).session = initialSession ∧
    (chat P st input).retrieval_calls = 0 ∧
    (chat P st input).answer = closingMessage ∧
    (chat P st input).self_learn_calls = 0 := by
  unfold chat
  rw [hcl]
  exact ⟨rfl, rfl, rfl, rfl, rfl⟩

/-- C7 witness: the closing phrase "고마워" resets session and history and
makes no retrieval call. -/
theorem closing_resets_session_no_retrieval_witness :
    (chat oracleLow st0 "고마워").retrieval_calls = 0 ∧
    (chat oracleLow st0 "고마워").history = [] ∧
    (chat oracleLow st0 "고마워").session = initialSession := by
  have h := closing_resets_session_no_retrieval oracleLow st0 "고마워" (by decide)
  exact ⟨h.2.2.1, h.1, h.2.1⟩

/-- C8: every turn yields a well-formed answer value: it is the closing
acknowledgment, the safe fallback message (provider failures are converted,
never propagated), or a successful generation-provider output. -/
theorem turn_always_answered (P : Providers) (st : SysState) (input : String) :
    (chat P st input).answer = closingMessage ∨
    (chat P st input).answer = fallbackMessage ∨
    ∃ prompt, P.generate prompt = Except.ok ((chat P st input).answer) := by
  unfold chat
  split
  · exact Or.inl rfl
  · unfold chatRespond
    split
    · rcases runGenerate_spec P (llmOnlyPrompt input st.history) with h | h
      · exact Or.inr (Or.inl h)
      · exact Or.inr (Or.inr ⟨llmOnlyPrompt input st.history, h⟩)
    · rcases runGenerate_spec P
        (ragPrompt input (searchTurn P input).results st.history) with h | h
      · exact Or.inr (Or.inl h)
      · exact Or.inr (Or.inr
          ⟨ragPrompt input (searchTurn P input).results st.history, h⟩)

/-- C9 counterexample: on the retrieval-augmented branch the mode field is
the input classification ("general" here), and the literal value
"retrieval_augmented" never occurs. -/
theorem mode_value_set_cex :
    (chat oracleLow st0 "오늘 날씨 알려줘").similarity_score < 7/10 ∧
    (chat oracleLow st0 "오늘 날씨 알려줘").mode = "general" ∧
    (chat oracleLow st0 "오늘 날씨 알려줘").mode ≠ "retrieval_augmented" := by
  refine ⟨?_, ?_, ?_⟩ <;> with_unfolding_all decide

/-- C9 (amended): on every non-closing turn the mode is `llm_only` exactly
on the unaugmented branch, and on the augmented branch it is the input
classification — one of `adler`, `counseling`, `general`; the literal
`retrieval_augmented` is never produced. -/
theorem mode_value_set (P : Providers) (st : SysState) (input : String)
    (hcl : isClosing input = false) :
    (7/10 ≤ (chat P st input).similarity_score →
      (chat P st input).mode = "llm_only") ∧
    ((chat P st input).similarity_score < 7/10 →
      (chat P st input).mode = classify_input input ∧
      ((chat P st input).mode = "adler" ∨ (chat P st input).mode = "counseling" ∨
        (chat P st input).mode = "general")) ∧
    (chat P st input).mode ≠ "retrieval_augmented" := by
  rw [chat_not_closing_eq P st input hcl]
  unfold chatRespond
  split
  · rename_i h7
    refine ⟨fun _ => rfl, ?_, ?_⟩
    · intro hlt
      exact absurd h7 (not_le.mpr hlt)
    · intro hm
      have hm2 : "llm_only" = "retrieval_augmented" := hm
      exact absurd hm2 (by decide)
  · rename_i h7
    refine ⟨?_, ?_, ?_⟩
    · intro hge
      exact absurd hge h7
    · intro _
      exact ⟨rfl, classify_input_cases input⟩
    · exact classify_input_ne_retrieval_augmented input

/-- C9 witness: an unaugmented turn (similarity exactly 0.7) carries mode
`llm_only`, not `retrieval_augmented`. -/
theorem mode_value_set_witness :
    (chat oracleBoundary st0 "내일 일정 알려줘").mode = "llm_only" ∧
    (chat oracleBoundary st0 "내일 일정 알려줘").mode ≠ "retrieval_augmented" := by
  have h := mode_value_set oracleBoundary st0 "내일 일정 알려줘"
    (by with_unfolding_all decide)
  exact ⟨h.1 (by with_unfolding_all decide), h.2.2⟩

/-- C10: when the translation call to the generation provider fails, the
translation function returns the original untranslated input, retrieval
embeds exactly that original text, and the turn still proceeds. -/
theorem translation_failure_uses_original (P : Providers) (st : SysState)
    (input : String) (e : ProviderError) (hcl : isClosing input = false)
    (h : P.generate (translationPrompt input) = Except.error e) :
    translate_to_english P input = input ∧
    (searchTurn P input).query_text = input ∧
    (chat P st input).continue_conversation = true := by
  have ht : translate_to_english P input = input := by
    unfold translate_to_english
    rw [h]
  refine ⟨ht, ?_, ?_⟩
  · show translate_to_english P input = input
    exact ht
  · rw [chat_not_closing_eq P st input hcl]
    exact chatRespond_continues P st input _

/-- C10 witness: with the generation provider in outage, the query "힘들어"
is embedded untranslated. -/
theorem translation_failure_uses_original_witness :
    translate_to_english oracleDown "힘들어" = "힘들어" ∧
    (searchTurn oracleDown "힘들어").query_text = "힘들어" := by
  have h := translation_failure_uses_original oracleDown st0 "힘들어"
    ProviderError.timeout (by decide) rfl
  exact ⟨h.1, h.2.1⟩

end VA
